import Mathlib

/-!
# Lapzen — verification of the filter engine, image reconciliation,
# upload/cleanup actions and credential rotation

Shallow embedding of the relevant parts of the Lapzen repository:

* `src/src/lib/types.ts` — the `Product` data model.
* `src/src/app/products/page.tsx` — the client-side filter engine
  (`filteredProducts`), the computed price ceiling (`fetchProducts`) and
  `handleResetFilters`.
* `src/src/app/admin/actions.ts` — `uploadImage`, `addProduct`,
  `updateProduct` (image reconciliation and best-effort cleanup) and
  `updateCredentials`.

External effects (Firebase storage uploads and deletions) are modelled by
oracles passed in as function arguments; the document store is modelled as
an explicit association list threaded through the actions.
-/

namespace Lapzen

/-- `condition: 'New' | 'Used' | 'Refurbished'` from `src/src/lib/types.ts`. -/
inductive Condition
  | New
  | Used
  | Refurbished
deriving DecidableEq, Repr

/-- The `specs` record of a product (`src/src/lib/types.ts`). -/
structure Specs where
  processor : String
  ram : String
  storage : String
  display : String
  battery : String
deriving DecidableEq, Repr

/-- The `Product` type of `src/src/lib/types.ts` (numeric price modelled
as an integer; the claims only compare and maximise prices). -/
structure Product where
  id : String
  name : String
  brand : String
  price : Int
  condition : Condition
  images : List String
  specs : Specs
  description : String
  featured : Bool
  newArrival : Bool
deriving DecidableEq, Repr

/-- The filter state of `src/src/app/products/page.tsx` (`filters`):
brand substring, price range, condition set, processor and RAM substrings. -/
structure FilterState where
  brand : String
  priceRange : Int × Int
  conditions : List Condition
  processor : String
  ram : String
deriving DecidableEq, Repr

/-- Model of JavaScript `s.startsWith(pre)` on the character sequence. -/
def strStartsWith (s pre : String) : Bool :=
  pre.data.isPrefixOf s.data

/-- Model of dropping the first `n` characters of a string. -/
def strDrop (s : String) (n : Nat) : String :=
  String.mk (s.data.drop n)

/-- Model of JavaScript `s.toLowerCase()`, characterwise. -/
def strToLower (s : String) : String :=
  String.mk (s.data.map Char.toLower)

/-- JavaScript `hay.toLowerCase().includes(needle.toLowerCase())`:
case-insensitive substring containment. -/
def lowerIncludes (hay needle : String) : Bool :=
  decide ((strToLower needle).data <:+: (strToLower hay).data)

/-- The predicate of the `allProducts.filter(...)` call in
`filteredProducts` (`src/src/app/products/page.tsx`, lines 64-74):
`brandMatch && priceMatch && conditionMatch && processorMatch && ramMatch`. -/
def productPred (filters : FilterState) (product : Product) : Bool :=
  let brandMatch := (filters.brand == "") || lowerIncludes product.brand filters.brand
  let priceMatch := decide (product.price ≤ filters.priceRange.2)
  let conditionMatch := (filters.conditions.length == 0) || decide (product.condition ∈ filters.conditions)
  let processorMatch := (filters.processor == "") || lowerIncludes product.specs.processor filters.processor
  let ramMatch := (filters.ram == "") || lowerIncludes product.specs.ram filters.ram
  brandMatch && priceMatch && conditionMatch && processorMatch && ramMatch

/-- The filter engine `filteredProducts` of `src/src/app/products/page.tsx`:
`allProducts.filter(product => ...)`. -/
def filterProducts (allProducts : List Product) (filters : FilterState) : List Product :=
  allProducts.filter (productPred filters)

/-- The computed price ceiling of `fetchProducts`
(`src/src/app/products/page.tsx`):
`products.length > 0 ? Math.max(...products.map(p => p.price)) : 1000000`. -/
def computedMaxPrice : List Product → Int
  | [] => 1000000
  | p :: ps => (ps.map Product.price).foldl max p.price

/-- `handleResetFilters` of `src/src/app/products/page.tsx`: restores the
empty filters with the price range `[0, maxPrice]` from component state. -/
def resetFilters (maxPrice : Int) : FilterState :=
  { brand := ""
    priceRange := (0, maxPrice)
    conditions := []
    processor := ""
    ram := "" }

/-! ### Helper lemmas about folded maxima -/

theorem le_foldl_max_init (xs : List Int) (a : Int) : a ≤ xs.foldl max a := by
  induction xs generalizing a with
  | nil => exact le_refl a
  | cons x xs ih => exact le_trans (le_max_left a x) (ih (max a x))

theorem le_foldl_max_of_mem {xs : List Int} {x : Int} (hx : x ∈ xs) (a : Int) :
    x ≤ xs.foldl max a := by
  induction xs generalizing a with
  | nil => cases hx
  | cons y ys ih =>
    rcases List.mem_cons.1 hx with h | h
    · subst h
      rw [List.foldl_cons]
      exact le_trans (le_max_right a x) (le_foldl_max_init ys (max a x))
    · rw [List.foldl_cons]
      exact ih h (max a y)

theorem foldl_max_mem (xs : List Int) (a : Int) :
    xs.foldl max a = a ∨ xs.foldl max a ∈ xs := by
  induction xs generalizing a with
  | nil => exact Or.inl rfl
  | cons x xs ih =>
    rcases ih (max a x) with h | h
    · rcases max_choice a x with hm | hm
      · exact Or.inl (by rw [List.foldl_cons, h, hm])
      · refine Or.inr ?_
        rw [List.foldl_cons, h, hm]
        exact List.mem_cons_self x xs
    · exact Or.inr (List.mem_cons_of_mem x h)

/-! ### Image upload and reconciliation (src/src/app/admin/actions.ts) -/

/-- JavaScript test `img.startsWith('data:image')` used to classify a
submitted image as an inline payload rather than a hosted reference. -/
def startsWithDataImage (s : String) : Bool :=
  strStartsWith s "data:image"

/-- Characters matched by `.` in a JavaScript regular expression:
anything except a line terminator. -/
def jsDotChar (c : Char) : Bool :=
  c != Char.ofNat 10 && c != Char.ofNat 13 && c != Char.ofNat 0x2028 && c != Char.ofNat 0x2029

/-- Match of the regular expression of `uploadImage`
(`data:(image\/(?:png|jpeg|jpg));base64,(.*)` anchored at both ends):
returns the captured mime type and base64 payload when the string matches. -/
def dataUriMatch (s : String) : Option (String × String) :=
  if strStartsWith s "data:image/png;base64," then
    let b := strDrop s 22
    if b.data.all jsDotChar then some ("image/png", b) else none
  else if strStartsWith s "data:image/jpeg;base64," then
    let b := strDrop s 23
    if b.data.all jsDotChar then some ("image/jpeg", b) else none
  else if strStartsWith s "data:image/jpg;base64," then
    let b := strDrop s 22
    if b.data.all jsDotChar then some ("image/jpg", b) else none
  else none

/-- Function `uploadImage` of `src/src/app/admin/actions.ts`. A string that
does not start with `data:image` is an existing URL and is returned
unchanged; a matching data URI is uploaded through the storage oracle `upl`
(which receives the mime type and base64 payload and returns the hosted
download URL, or the storage failure); a data URI that does not match the
regular expression throws `Invalid data URI format`. -/
def uploadImage (upl : String → String → Except String String) (dataUri : String) :
    Except String String :=
  if !(startsWithDataImage dataUri) then Except.ok dataUri
  else
    match dataUriMatch dataUri with
    | none => Except.error "Invalid data URI format"
    | some (mimeType, base64Data) => upl mimeType base64Data

/-- Sequencing of `Promise.all(images.map(image => uploadImage(...)))`:
all uploads must succeed, otherwise the first failure in list order is the
outcome. In `updateProduct` the map is
`img.startsWith('data:image') ? uploadImage(img, id) : Promise.resolve(img)`,
which agrees with applying `uploadImage` to every element because
`uploadImage` passes non-data-URI strings through unchanged. -/
def uploadAll (upl : String → String → Except String String) :
    List String → Except String (List String)
  | [] => Except.ok []
  | img :: rest =>
    match uploadImage upl img, uploadAll upl rest with
    | Except.ok url, Except.ok urls => Except.ok (url :: urls)
    | Except.error e, _ => Except.error e
    | _, Except.error e => Except.error e

/-- Result of image reconciliation during `updateProduct`. -/
structure ReconcileResult where
  toUpload : List String
  finalRefs : List String
  toDelete : List String
deriving DecidableEq, Repr

/-- Positional substitution of one submitted image during `updateProduct`:
an inline payload is replaced by the hosted reference obtained from the
upload, an already-hosted reference passes through unchanged. -/
def substOne (upload : String → String) (img : String) : String :=
  if startsWithDataImage img then upload img else img

/-- Image reconciliation of `updateProduct` (lines 91-99 of
`src/src/app/admin/actions.ts`), with the storage upload abstracted as a
total oracle `upload` (the all-uploads-succeed path):
`newImageUrls = submittedImages.map(img => startsWith ? uploadImage(img) : img)`
and `imagesToDelete = existingImages.filter(img => !newImageUrls.includes(img))`;
`toUpload` collects the inline payloads that get uploaded. -/
def reconcileImages (upload : String → String) (existing submitted : List String) :
    ReconcileResult :=
  let finalRefs := submitted.map (substOne upload)
  { toUpload := submitted.filter startsWithDataImage
    finalRefs := finalRefs
    toDelete := existing.filter (fun img => !(finalRefs.contains img)) }

/-! ### The admin actions (src/src/app/admin/actions.ts) -/

/-- Outcome of one `deleteObject` call against the storage layer. -/
inductive DeleteOutcome
  | ok
  | notFound
  | failure (msg : String)
deriving DecidableEq, Repr

/-- Whether a deletion outcome is a failure other than
`storage/object-not-found`. -/
def DeleteOutcome.isFailure : DeleteOutcome → Bool
  | DeleteOutcome.failure _ => true
  | _ => false

/-- Cleanup loop of `updateProduct`: each image scheduled for deletion is
deleted best-effort; a `storage/object-not-found` error is ignored
silently, any other failure is logged with `console.error`; the loop never
aborts. Returns the log lines. -/
def cleanupImages (del : String → DeleteOutcome) : List String → List String
  | [] => []
  | img :: rest =>
    match del img with
    | DeleteOutcome.failure _ =>
        ("Failed to delete old image from storage: " ++ img) :: cleanupImages del rest
    | _ => cleanupImages del rest

/-- Product submission fields as validated by `productSchema`
(`src/src/app/admin/actions.ts`). -/
structure ProductData where
  name : String
  brand : String
  price : Int
  condition : Condition
  images : List String
  specs : Specs
  description : String
  featured : Bool
  newArrival : Bool
deriving DecidableEq, Repr

/-- Checks of `productSchema` on the modelled fields: nonempty strings,
positive price, between 1 and 5 images. -/
def validProduct (d : ProductData) : Bool :=
  decide (1 ≤ d.name.length) && decide (1 ≤ d.brand.length) &&
  decide (0 < d.price) &&
  decide (1 ≤ d.images.length) && decide (d.images.length ≤ 5) &&
  decide (1 ≤ d.specs.processor.length) && decide (1 ≤ d.specs.ram.length) &&
  decide (1 ≤ d.specs.storage.length) && decide (1 ≤ d.specs.display.length) &&
  decide (1 ≤ d.specs.battery.length) &&
  decide (1 ≤ d.description.length)

/-- Product document store (the Firestore `products` collection), keyed by
document id. -/
structure Store where
  docs : List (String × ProductData)
deriving DecidableEq, Repr

/-- Outcome of a server action: the `success` flag, the `formErrors` of the
returned error object, and the `console.error` lines produced by
best-effort cleanup. -/
structure ActionResult where
  success : Bool
  formErrors : List String
  log : List String
deriving DecidableEq, Repr

/-- Function `addProduct` of `src/src/app/admin/actions.ts`: validate,
upload every image (all must succeed), then append the new document.
`newId` stands for the generated document id. A validation failure returns
the flattened field errors (empty `formErrors`); an upload failure is
caught and returns the generic persistence failure with no store change. -/
def addProduct (upl : String → String → Except String String) (newId : String)
    (st : Store) (data : ProductData) : ActionResult × Store :=
  if validProduct data = false then
    ({ success := false, formErrors := [], log := [] }, st)
  else
    match uploadAll upl data.images with
    | Except.error _ =>
        ({ success := false, formErrors := ["Failed to save product to the database."],
           log := [] }, st)
    | Except.ok imageUrls =>
        ({ success := true, formErrors := [], log := [] },
         { docs := st.docs ++ [(newId, { data with images := imageUrls })] })

/-- Function `updateProduct` of `src/src/app/admin/actions.ts`: validate,
look up the existing document, upload every submitted image (a string that
is not a data URI passes through unchanged), best-effort delete the
existing hosted references absent from the new list, then write the updated
document. An upload failure is caught before any deletion or write and
returns the generic persistence failure with no store change. -/
def updateProduct (upl : String → String → Except String String)
    (del : String → DeleteOutcome) (st : Store) (id : String) (data : ProductData) :
    ActionResult × Store :=
  if validProduct data = false then
    ({ success := false, formErrors := [], log := [] }, st)
  else
    match st.docs.find? (fun kv => kv.1 == id) with
    | none => ({ success := false, formErrors := ["Product not found"], log := [] }, st)
    | some kv =>
        match uploadAll upl data.images with
        | Except.error _ =>
            ({ success := false,
               formErrors := ["Failed to update product in the database."], log := [] }, st)
        | Except.ok newImageUrls =>
            let imagesToDelete := kv.2.images.filter (fun img => !(newImageUrls.contains img))
            ({ success := true, formErrors := [], log := cleanupImages del imagesToDelete },
             { docs := st.docs.map (fun kv2 =>
                 if kv2.1 == id then (kv2.1, { data with images := newImageUrls }) else kv2) })

/-! ### Credential rotation (src/src/app/admin/actions.ts, src auth lib) -/

/-- Stored admin credentials (the single record of `data/auth.json`). -/
structure Creds where
  username : String
  password : String
deriving DecidableEq, Repr

/-- Credential-rotation request fields as validated by
`credentialsSchema`. -/
structure CredRequest where
  currentPassword : String
  newUsername : String
  newPassword : String
deriving DecidableEq, Repr

/-- Checks of `credentialsSchema`: nonempty current password and new
username, new password of length at least 6. -/
def validCredRequest (r : CredRequest) : Bool :=
  decide (1 ≤ r.currentPassword.length) && decide (1 ≤ r.newUsername.length) &&
  decide (6 ≤ r.newPassword.length)

/-- Result of `updateCredentials`: success flag and `formErrors`. -/
structure CredResult where
  success : Bool
  formErrors : List String
deriving DecidableEq, Repr

/-- Generic failure message of the `catch` branch of `updateCredentials`. -/
def genericCredFailure : String := "Failed to update credentials."

/-- Function `updateCredentials` of `src/src/app/admin/actions.ts`:
validate the request, compare the presented current password with the
stored one, and on match save the new username/password pair in one write
(`saveAuthCredentials`); on mismatch reject with
`Incorrect current password.` and leave the store unchanged. -/
def updateCredentials (stored : Creds) (r : CredRequest) : CredResult × Creds :=
  if validCredRequest r = false then
    ({ success := false, formErrors := [] }, stored)
  else if r.currentPassword != stored.password then
    ({ success := false, formErrors := ["Incorrect current password."] }, stored)
  else
    ({ success := true, formErrors := [] },
     { username := r.newUsername, password := r.newPassword })

/-! ### Helper lemmas about the actions -/

theorem uploadAll_error_of_mem (upl : String → String → Except String String)
    {imgs : List String} {img : String} {e : String}
    (h1 : img ∈ imgs) (h2 : uploadImage upl img = Except.error e) :
    ∃ e2, uploadAll upl imgs = Except.error e2 := by
  induction imgs with
  | nil => cases h1
  | cons x xs ih =>
    rcases List.mem_cons.1 h1 with h | h
    · subst h
      exact ⟨e, by simp [uploadAll, h2]⟩
    · rcases ih h with ⟨e2, he2⟩
      cases hx : uploadImage upl x with
      | ok u => exact ⟨e2, by simp [uploadAll, hx, he2]⟩
      | error e3 => exact ⟨e3, by simp [uploadAll, hx]⟩

theorem cleanupImages_eq_filter_map (del : String → DeleteOutcome) (imgs : List String) :
    cleanupImages del imgs =
      (imgs.filter (fun i => (del i).isFailure)).map
        (fun i => "Failed to delete old image from storage: " ++ i) := by
  induction imgs with
  | nil => rfl
  | cons x xs ih =>
    cases hd : del x with
    | ok => simp [cleanupImages, hd, DeleteOutcome.isFailure, ih]
    | notFound => simp [cleanupImages, hd, DeleteOutcome.isFailure, ih]
    | failure m => simp [cleanupImages, hd, DeleteOutcome.isFailure, ih]

/-! ### Sample data for witnesses -/

def sampleSpecs : Specs :=
  { processor := "Intel Core i7"
    ram := "16GB DDR4"
    storage := "512GB SSD"
    display := "14 inch"
    battery := "10 hours" }

def sampleProduct : Product :=
  { id := "p1"
    name := "MacBook Pro 14"
    brand := "Apple"
    price := 450000
    condition := Condition.New
    images := ["https://host/img1.png"]
    specs := sampleSpecs
    description := "A laptop"
    featured := true
    newArrival := false }

def sampleProduct2 : Product :=
  { sampleProduct with id := "p2", name := "ThinkPad X1", brand := "Lenovo", price := 300000 }

def sampleFilters : FilterState :=
  { brand := "apple"
    priceRange := (0, 500000)
    conditions := [Condition.New, Condition.Used]
    processor := "i7"
    ram := "16" }

/-- A valid product submission carrying one inline image payload. -/
def sampleData : ProductData :=
  { name := "MacBook Pro 14"
    brand := "Apple"
    price := 450000
    condition := Condition.New
    images := ["data:image/png;base64,QUJD"]
    specs := sampleSpecs
    description := "A laptop"
    featured := false
    newArrival := false }

/-- A stored product document carrying two hosted references. -/
def sampleStoredData : ProductData :=
  { sampleData with images := ["https://host/a.png", "https://host/b.png"] }

/-- A store holding one document under id `p1`. -/
def sampleStore : Store := { docs := [("p1", sampleStoredData)] }

/-- A storage oracle whose uploads always succeed. -/
def okOracle : String → String → Except String String :=
  fun _ _ => Except.ok "https://host/new.png"

/-- A storage oracle whose uploads always fail. -/
def failingOracle : String → String → Except String String :=
  fun _ _ => Except.error "boom"

/-! ### Claims about the filter engine -/

/-- **C1**: a product of the input list is in the output of the filter engine
iff all five predicates hold: brand filter empty or case-insensitive
substring of the brand; price at most the ceiling; condition set empty or
containing the product condition; processor filter empty or case-insensitive
substring of the processor spec; RAM filter empty or case-insensitive
substring of the RAM spec. -/
theorem mem_filterProducts_iff (L : List Product) (F : FilterState) (p : Product)
    (hp : p ∈ L) :
    p ∈ filterProducts L F ↔
      ((F.brand = "" ∨ (strToLower F.brand).data <:+: (strToLower p.brand).data) ∧
       p.price ≤ F.priceRange.2 ∧
       (F.conditions = [] ∨ p.condition ∈ F.conditions) ∧
       (F.processor = "" ∨ (strToLower F.processor).data <:+: (strToLower p.specs.processor).data) ∧
       (F.ram = "" ∨ (strToLower F.ram).data <:+: (strToLower p.specs.ram).data)) := by
  simp [filterProducts, List.mem_filter, hp, productPred, lowerIncludes,
    List.length_eq_zero, and_assoc]

/-- Witness for **C1** at a concrete product, list and filter state. -/
theorem mem_filterProducts_iff_witness :
    sampleProduct ∈ filterProducts [sampleProduct, sampleProduct2] sampleFilters ↔
      ((sampleFilters.brand = "" ∨
          (strToLower sampleFilters.brand).data <:+: (strToLower sampleProduct.brand).data) ∧
       sampleProduct.price ≤ sampleFilters.priceRange.2 ∧
       (sampleFilters.conditions = [] ∨ sampleProduct.condition ∈ sampleFilters.conditions) ∧
       (sampleFilters.processor = "" ∨
          (strToLower sampleFilters.processor).data <:+: (strToLower sampleProduct.specs.processor).data) ∧
       (sampleFilters.ram = "" ∨
          (strToLower sampleFilters.ram).data <:+: (strToLower sampleProduct.specs.ram).data)) :=
  mem_filterProducts_iff [sampleProduct, sampleProduct2] sampleFilters sampleProduct
    (by simp)

/-- **C6**: the output of the filter engine is a subsequence of the input:
every output product occurs in the input and relative order is preserved. -/
theorem filterProducts_sublist (L : List Product) (F : FilterState) :
    (filterProducts L F).Sublist L :=
  List.filter_sublist L

/-- **C8**: the filter engine is idempotent. -/
theorem filterProducts_idem (L : List Product) (F : FilterState) :
    filterProducts (filterProducts L F) F = filterProducts L F := by
  simp [filterProducts, List.filter_filter]

/-- **C7**: with all text filters empty, the condition set empty and the
price ceiling equal to the maximum price of the (nonempty) list, the filter
engine returns the list unchanged; on the empty list every filter state
returns the empty list. -/
theorem filterProducts_reset_identity (p : Product) (ps : List Product) :
    filterProducts (p :: ps) (resetFilters (computedMaxPrice (p :: ps))) = p :: ps ∧
    ∀ F : FilterState, filterProducts [] F = [] := by
  constructor
  · apply List.filter_eq_self.mpr
    intro q hq
    have hle : q.price ≤ computedMaxPrice (p :: ps) := by
      rcases List.mem_cons.1 hq with h | h
      · subst h
        exact le_foldl_max_init _ _
      · exact le_foldl_max_of_mem (List.mem_map_of_mem Product.price h) _
    simp [productPred, resetFilters, hle]
  · intro F
    rfl

/-! ### Claim C5: the computed price ceiling -/

/-- Counterexample for **C5** as stated: on the empty product list the
computed ceiling is the fallback constant 1000000, not 0. -/
theorem computedMaxPrice_nil_ne_zero :
    computedMaxPrice [] = 1000000 ∧ computedMaxPrice [] ≠ 0 := by
  exact ⟨rfl, by decide⟩

/-- **C5 (amended)**: after products load the price ceiling is the maximum
price over a nonempty product list; on the empty list it is the fallback
constant 1000000 (not 0); resetting the filters restores the computed
ceiling together with the empty filters. -/
theorem computedMaxPrice_spec (p : Product) (ps : List Product) (L : List Product) :
    (computedMaxPrice (p :: ps) ∈ (p :: ps).map Product.price ∧
     ∀ q ∈ p :: ps, q.price ≤ computedMaxPrice (p :: ps)) ∧
    computedMaxPrice [] = 1000000 ∧
    (resetFilters (computedMaxPrice L)).priceRange.2 = computedMaxPrice L ∧
    (resetFilters (computedMaxPrice L)).brand = "" ∧
    (resetFilters (computedMaxPrice L)).conditions = [] ∧
    (resetFilters (computedMaxPrice L)).processor = "" ∧
    (resetFilters (computedMaxPrice L)).ram = "" := by
  refine ⟨⟨?_, ?_⟩, rfl, rfl, rfl, rfl, rfl, rfl⟩
  · rcases foldl_max_mem (ps.map Product.price) p.price with h | h
    · simp [computedMaxPrice, h]
    · simp only [computedMaxPrice, List.map_cons]
      exact List.mem_cons_of_mem _ h
  · intro q hq
    rcases List.mem_cons.1 hq with h | h
    · subst h
      exact le_foldl_max_init _ _
    · exact le_foldl_max_of_mem (List.mem_map_of_mem Product.price h) _

/-- Witness for **C5 (amended)** at a concrete product list. -/
theorem computedMaxPrice_spec_witness :
    (computedMaxPrice [sampleProduct, sampleProduct2] ∈
        ([sampleProduct, sampleProduct2]).map Product.price ∧
     ∀ q ∈ [sampleProduct, sampleProduct2],
        q.price ≤ computedMaxPrice [sampleProduct, sampleProduct2]) ∧
    computedMaxPrice [] = 1000000 ∧
    (resetFilters (computedMaxPrice [sampleProduct])).priceRange.2 =
      computedMaxPrice [sampleProduct] ∧
    (resetFilters (computedMaxPrice [sampleProduct])).brand = "" ∧
    (resetFilters (computedMaxPrice [sampleProduct])).conditions = [] ∧
    (resetFilters (computedMaxPrice [sampleProduct])).processor = "" ∧
    (resetFilters (computedMaxPrice [sampleProduct])).ram = "" :=
  computedMaxPrice_spec sampleProduct [sampleProduct2] [sampleProduct]

/-! ### Claim C2: image reconciliation -/

/-- **C2**: reconciliation keeps the submission order, substituting each
inline payload positionally by its hosted reference and passing hosted
references through unchanged; `toDelete` holds exactly the members of
`existing` absent (by exact string equality) from the final reference list;
for existing = [A,B,C] and submitted = [A, inlineX, C] the result is
finalRefs = [A, hostedX, C], toUpload = [inlineX], toDelete = [B]. -/
theorem reconcileImages_spec (upload : String → String) (existing submitted : List String) :
    ((reconcileImages upload existing submitted).finalRefs.length = submitted.length ∧
     ∀ i : Nat, (reconcileImages upload existing submitted).finalRefs.get? i =
       (submitted.get? i).map (substOne upload)) ∧
    (∀ x, x ∈ (reconcileImages upload existing submitted).toDelete ↔
       x ∈ existing ∧ x ∉ (reconcileImages upload existing submitted).finalRefs) ∧
    (∀ x, x ∈ (reconcileImages upload existing submitted).toUpload ↔
       x ∈ submitted ∧ startsWithDataImage x = true) ∧
    reconcileImages (fun _ => "https://host/x.png")
      ["https://a", "https://b", "https://c"]
      ["https://a", "data:image/png;base64,QUJD", "https://c"] =
      { toUpload := ["data:image/png;base64,QUJD"]
        finalRefs := ["https://a", "https://host/x.png", "https://c"]
        toDelete := ["https://b"] } := by
  refine ⟨⟨?_, ?_⟩, ?_, ?_, by decide⟩
  · simp [reconcileImages]
  · intro i
    simp [reconcileImages, List.get?_map]
  · intro x
    simp [reconcileImages, List.mem_filter]
  · intro x
    simp [reconcileImages, List.mem_filter]

/-- Witness for **C2**: positional substitution at the concrete instance. -/
theorem reconcileImages_spec_witness :
    (reconcileImages (fun _ => "https://host/x.png")
        ["https://a", "https://b", "https://c"]
        ["https://a", "data:image/png;base64,QUJD", "https://c"]).finalRefs.get? 1 =
      ((["https://a", "data:image/png;base64,QUJD", "https://c"] : List String).get? 1).map
        (substOne (fun _ => "https://host/x.png")) :=
  (reconcileImages_spec (fun _ => "https://host/x.png")
      ["https://a", "https://b", "https://c"]
      ["https://a", "data:image/png;base64,QUJD", "https://c"]).1.2 1

/-! ### Claim C3: upload failure aborts the whole write -/

/-- **C3**: if any submitted image fails to upload, `addProduct` and
`updateProduct` both return failure and leave the document store exactly as
it was: no record is created and no record is modified. -/
theorem upload_failure_no_write (upl : String → String → Except String String)
    (del : String → DeleteOutcome) (newId id : String) (st : Store)
    (data : ProductData) (img e : String)
    (hmem : img ∈ data.images) (hfail : uploadImage upl img = Except.error e) :
    ((addProduct upl newId st data).1.success = false ∧
     (addProduct upl newId st data).2 = st) ∧
    ((updateProduct upl del st id data).1.success = false ∧
     (updateProduct upl del st id data).2 = st) := by
  obtain ⟨e2, he2⟩ := uploadAll_error_of_mem upl hmem hfail
  constructor
  · by_cases hv : validProduct data = false
    · simp [addProduct, hv]
    · simp [addProduct, hv, he2]
  · by_cases hv : validProduct data = false
    · simp [updateProduct, hv]
    · cases hf : st.docs.find? (fun kv => kv.1 == id) with
      | none => simp [updateProduct, hv, hf]
      | some kv => simp [updateProduct, hv, hf, he2]

/-- Witness for **C3**: a failing storage oracle on a concrete submission
leaves the concrete store untouched in both actions. -/
theorem upload_failure_no_write_witness :
    ((addProduct failingOracle "p2" sampleStore sampleData).1.success = false ∧
     (addProduct failingOracle "p2" sampleStore sampleData).2 = sampleStore) ∧
    ((updateProduct failingOracle (fun _ => DeleteOutcome.ok) sampleStore "p1"
        sampleData).1.success = false ∧
     (updateProduct failingOracle (fun _ => DeleteOutcome.ok) sampleStore "p1"
        sampleData).2 = sampleStore) :=
  upload_failure_no_write failingOracle (fun _ => DeleteOutcome.ok) "p2" "p1"
    sampleStore sampleData "data:image/png;base64,QUJD" "boom" (by decide) rfl

/-! ### Claim C9: best-effort cleanup never blocks the update -/

/-- **C9**: once validation, lookup and uploads have succeeded, the update
succeeds for every deletion oracle: a not-found deletion outcome produces
nothing, any other deletion failure produces only a log line, and the
cleanup log is exactly one line per deletion failing with an error other
than not-found. -/
theorem cleanup_never_blocks (upl : String → String → Except String String)
    (del : String → DeleteOutcome) (st : Store) (id : String)
    (data : ProductData) (kv : String × ProductData) (urls : List String)
    (hv : validProduct data = true)
    (hfind : st.docs.find? (fun kv2 => kv2.1 == id) = some kv)
    (hup : uploadAll upl data.images = Except.ok urls) :
    (updateProduct upl del st id data).1.success = true ∧
    (∀ imgs : List String,
      cleanupImages del imgs =
        (imgs.filter (fun i => (del i).isFailure)).map
          (fun i => "Failed to delete old image from storage: " ++ i)) := by
  constructor
  · simp [updateProduct, hv, hfind, hup]
  · intro imgs
    exact cleanupImages_eq_filter_map del imgs

/-- Witness for **C9**: with a deletion oracle that always fails, the
concrete update still succeeds. -/
theorem cleanup_never_blocks_witness :
    (updateProduct okOracle (fun _ => DeleteOutcome.failure "denied") sampleStore "p1"
        sampleData).1.success = true ∧
    (∀ imgs : List String,
      cleanupImages (fun _ => DeleteOutcome.failure "denied") imgs =
        (imgs.filter
            (fun i => ((fun _ => DeleteOutcome.failure "denied") i).isFailure)).map
          (fun i => "Failed to delete old image from storage: " ++ i)) :=
  cleanup_never_blocks okOracle (fun _ => DeleteOutcome.failure "denied") sampleStore "p1"
    sampleData ("p1", sampleStoredData) ["https://host/new.png"] (by decide) rfl rfl

/-! ### Claim C4: credential rotation -/

/-- **C4**: a validated rotation request with a wrong current password is
rejected with the authentication-failure message — distinct from the
generic failure message — and the stored credentials are unchanged; with
the matching current password both stored fields are replaced in one write
and the operation succeeds. -/
theorem updateCredentials_spec (stored : Creds) (r : CredRequest)
    (hv : validCredRequest r = true) :
    (r.currentPassword ≠ stored.password →
      updateCredentials stored r =
        ({ success := false, formErrors := ["Incorrect current password."] }, stored) ∧
      "Incorrect current password." ≠ genericCredFailure) ∧
    (r.currentPassword = stored.password →
      updateCredentials stored r =
        ({ success := true, formErrors := [] },
         { username := r.newUsername, password := r.newPassword })) := by
  constructor
  · intro hne
    refine ⟨?_, by decide⟩
    simp [updateCredentials, hv, hne]
  · intro heq
    simp [updateCredentials, hv, heq]

/-- Witness for **C4**: a wrong and a right current password at concrete
credentials. -/
theorem updateCredentials_spec_witness :
    (updateCredentials ⟨"admin", "password"⟩ ⟨"nope", "root", "secret123"⟩ =
        ({ success := false, formErrors := ["Incorrect current password."] },
         ⟨"admin", "password"⟩) ∧
      "Incorrect current password." ≠ genericCredFailure) ∧
    updateCredentials ⟨"admin", "password"⟩ ⟨"password", "root", "secret123"⟩ =
        ({ success := true, formErrors := [] }, ⟨"root", "secret123"⟩) :=
  ⟨(updateCredentials_spec ⟨"admin", "password"⟩ ⟨"nope", "root", "secret123"⟩
      (by decide)).1 (by decide),
   (updateCredentials_spec ⟨"admin", "password"⟩ ⟨"password", "root", "secret123"⟩
      (by decide)).2 rfl⟩

/-! ### Claim C10: classification of submitted images in uploadImage -/

/-- **C10**: classification is by the `data:image` prefix: a string without
it is returned unchanged; a string with it that does not match the data-URI
pattern for png, jpeg or jpg yields the `Invalid data URI format` error;
concretely a webp data URI has the prefix, fails the match, and makes the
enclosing `addProduct` fail with no store change, for every storage
oracle. -/
theorem uploadImage_classification (upl : String → String → Except String String)
    (newId : String) (st : Store) (s : String) :
    (startsWithDataImage s = false → uploadImage upl s = Except.ok s) ∧
    (startsWithDataImage s = true → dataUriMatch s = none →
      uploadImage upl s = Except.error "Invalid data URI format") ∧
    (startsWithDataImage "data:image/webp;base64,AAAA" = true ∧
     dataUriMatch "data:image/webp;base64,AAAA" = none) ∧
    ((addProduct upl newId st
        { sampleData with images := ["data:image/webp;base64,AAAA"] }).1.success = false ∧
     (addProduct upl newId st
        { sampleData with images := ["data:image/webp;base64,AAAA"] }).2 = st) := by
  refine ⟨?_, ?_, ⟨by decide, by decide⟩, ?_⟩
  · intro h
    simp [uploadImage, h]
  · intro h1 h2
    simp [uploadImage, h1, h2]
  · have hup : uploadAll upl ["data:image/webp;base64,AAAA"] =
        Except.error "Invalid data URI format" := rfl
    have hv : validProduct { sampleData with images := ["data:image/webp;base64,AAAA"] } =
        true := by decide
    constructor
    · simp [addProduct, hv, hup]
    · simp [addProduct, hv, hup]

/-- Witness for **C10**: a hosted reference passes through and a webp data
URI is rejected, under a concrete always-succeeding oracle. -/
theorem uploadImage_classification_witness :
    uploadImage okOracle "https://host/a.png" = Except.ok "https://host/a.png" ∧
    uploadImage okOracle "data:image/webp;base64,AAAA" =
      Except.error "Invalid data URI format" :=
  ⟨(uploadImage_classification okOracle "p9" { docs := [] } "https://host/a.png").1
      (by decide),
   (uploadImage_classification okOracle "p9" { docs := [] } "data:image/webp;base64,AAAA").2.1
      (by decide) (by decide)⟩

end Lapzen
